import Mathlib

/-!
Verification of the Ledger repository: a shallow embedding of the
FHEVM smart contract `Ledger` (contracts/Ledger.sol) and the frontend
hook `useLedger` (frontend/hooks/useLedger.tsx), plus the mock-mode
bootstrapper (frontend/fhevm/internal/mock/fhevmMock.ts).

Encrypted 32-bit values (euint32) are modelled as `Option Nat`:
`none` is the all-zero uninitialized handle (bytes32(0)), `some v` is
an initialized ciphertext handle whose underlying plaintext is `v`.
Encrypted booleans (ebool) are `Option Bool` in the same way.  All
euint32 arithmetic wraps modulo 2^32, matching FHE.add / FHE.sub /
FHE.mul on 32-bit encrypted integers.
-/

/-- The euint32 modulus, 2^32. -/
def U32 : Nat := 4294967296

/-- Reduce a natural number modulo 2^32 (euint32 wrap-around). -/
def wrap32 (n : Nat) : Nat := n % U32

/-- Contract struct `UserAccount` (Ledger.sol lines 12-19): encrypted
balance, monthly expense, monthly budget, over-budget flag and budget
warning flag, plus the plaintext `lastUpdateMonth`. -/
structure UserAccount where
  balance : Option Nat
  monthlyExpense : Option Nat
  monthlyBudget : Option Nat
  isOverBudget : Option Bool
  isBudgetWarning : Option Bool
  lastUpdateMonth : Nat
deriving DecidableEq

/-- Contract struct `Transaction` (Ledger.sol lines 22-28): only the
amount is encrypted; timestamp, category, isIncome and month are
plaintext. -/
structure Transaction where
  amount : Nat
  timestamp : Nat
  category : Nat
  isIncome : Bool
  month : Nat
deriving DecidableEq

/-- The contract storage: `accounts`, `transactions` and
`categoryTotals` mappings (Ledger.sol lines 31-37).  Addresses are
modelled as naturals.  A `categoryTotals` entry of `none` is the
default all-zero handle of an untouched mapping slot. -/
structure LedgerState where
  accounts : Nat → UserAccount
  transactions : Nat → List Transaction
  categoryTotals : Nat → Nat → Option Nat

namespace Ledger

/-- The default account a Solidity mapping yields before any write:
all handles are bytes32(0) and `lastUpdateMonth` is 0. -/
def defaultAccount : UserAccount :=
  { balance := none, monthlyExpense := none, monthlyBudget := none,
    isOverBudget := none, isBudgetWarning := none, lastUpdateMonth := 0 }

/-- Contract storage right after deployment: every mapping slot holds
its default value. -/
def initialState : LedgerState :=
  { accounts := fun _ => defaultAccount,
    transactions := fun _ => [],
    categoryTotals := fun _ _ => none }

/-- Model of `FHE.fromExternal` on an externalEuint32: the imported ciphertext
carries a 32-bit value. -/
def fromExternal (n : Nat) : Nat := wrap32 n

/-- Model of `FHE.add` on euint32: wrapping addition modulo 2^32. -/
def fheAdd (x y : Nat) : Nat := wrap32 (x + y)

/-- Model of `FHE.sub` on euint32: wrapping subtraction modulo 2^32. -/
def fheSub (x y : Nat) : Nat := wrap32 (x + (U32 - y % U32))

/-- Model of `FHE.mul` on euint32: wrapping multiplication modulo 2^32. -/
def fheMul (x y : Nat) : Nat := wrap32 (x * y)

/-- Model of `FHE.gt` on euint32: strict greater-than comparison. -/
def fheGt (x y : Nat) : Bool := decide (x > y)

/-- Solidity `_ensureNumericInitialized` (Ledger.sol lines 55-65): replace each
all-zero numeric handle with an encrypted zero. -/
def ensureNumericInitialized (a : UserAccount) : UserAccount :=
  { a with
    balance := if a.balance = none then some 0 else a.balance,
    monthlyExpense := if a.monthlyExpense = none then some 0 else a.monthlyExpense,
    monthlyBudget := if a.monthlyBudget = none then some 0 else a.monthlyBudget }

/-- Solidity `_updateBudgetFlags` (Ledger.sol lines 234-248): after ensuring
initialization, set `isOverBudget := monthlyExpense > monthlyBudget`
and `isBudgetWarning := monthlyExpense * 10 > monthlyBudget * 8`, both
products taken in wrapping euint32 arithmetic. -/
def updateBudgetFlags (a : UserAccount) : UserAccount :=
  let a := ensureNumericInitialized a
  let e := a.monthlyExpense.getD 0
  let b := a.monthlyBudget.getD 0
  { a with
    isOverBudget := some (fheGt e b),
    isBudgetWarning := some (fheGt (fheMul e 10) (fheMul b 8)) }

/-- Solidity `Ledger.addTransaction` (Ledger.sol lines 135-202) as a state
transition of the caller.  The encrypted input is represented by the
32-bit plaintext it carries.  Steps, in source order: ensure numeric
fields are initialized; import the amount; push the transaction; add
or subtract the amount from the balance depending on `isIncome`; for
an expense, either accumulate into `monthlyExpense` (same month) or
reset it to the amount and update `lastUpdateMonth`; initialize the
category bucket if needed and add the amount; recompute budget flags. -/
def addTransaction (s : LedgerState) (caller : Nat) (amountExt : Nat)
    (timestamp category : Nat) (isIncome : Bool) (categoryKey month : Nat) :
    LedgerState :=
  let acct := ensureNumericInitialized (s.accounts caller)
  let amount := fromExternal amountExt
  let tx : Transaction :=
    { amount := amount, timestamp := timestamp, category := category,
      isIncome := isIncome, month := month }
  let txs := s.transactions caller ++ [tx]
  let bal := acct.balance.getD 0
  let acct :=
    { acct with balance := some (if isIncome then fheAdd bal amount else fheSub bal amount) }
  let acct :=
    if isIncome then acct
    else if month = acct.lastUpdateMonth then
      { acct with monthlyExpense := some (fheAdd (acct.monthlyExpense.getD 0) amount) }
    else
      { acct with monthlyExpense := some amount, lastUpdateMonth := month }
  let ctOld := s.categoryTotals caller categoryKey
  let ctBase := if ctOld = none then some 0 else ctOld
  let ctNew := some (fheAdd (ctBase.getD 0) amount)
  let acct := updateBudgetFlags acct
  { accounts := fun a => if a = caller then acct else s.accounts a,
    transactions := fun a => if a = caller then txs else s.transactions a,
    categoryTotals := fun a k =>
      if a = caller ∧ k = categoryKey then ctNew else s.categoryTotals a k }

/-- Solidity `Ledger.setMonthlyBudget` (Ledger.sol lines 207-224): ensure
numeric fields are initialized, import the budget, store it, and
recompute the budget flags. -/
def setMonthlyBudget (s : LedgerState) (caller : Nat) (budgetExt : Nat) :
    LedgerState :=
  let acct := ensureNumericInitialized (s.accounts caller)
  let budget := fromExternal budgetExt
  let acct := { acct with monthlyBudget := some budget }
  let acct := updateBudgetFlags acct
  { s with accounts := fun a => if a = caller then acct else s.accounts a }

/-- Solidity `Ledger.queryTransactionsByMonth` (Ledger.sol lines 253-275):
indices of the caller transactions whose month matches. -/
def queryTransactionsByMonth (s : LedgerState) (caller : Nat) (month : Nat) :
    List Nat :=
  (List.range (s.transactions caller).length).filter
    (fun i => ((s.transactions caller).getD i
      { amount := 0, timestamp := 0, category := 0, isIncome := false, month := 0 }).month = month)

end Ledger

/-!
Frontend embedding (frontend/hooks/useLedger.tsx).  Each async handler
of the `useLedger` hook is modelled as a function from its start-time
context (captured props and state, plus the values the awaited calls
will return, and the outcome of each staleness re-check) to the list
of effects the handler performs, in program order.  React state writes,
ref writes, external calls and the `refreshData()` trigger are all
effects.
-/

/-- Constant `ethers.ZeroHash`: the all-zero bytes32 handle. -/
def ZeroHash : String :=
  "0x0000000000000000000000000000000000000000000000000000000000000000"

/-- Constant `ethers.ZeroAddress`. -/
def ZeroAddress : String := "0x0000000000000000000000000000000000000000"

/-- What the runtime environment answers at one staleness check point:
the current `ledgerRef.current?.address`, and the results of
`sameChain.current(thisChainId)` and `sameSigner.current(thisEthersSigner)`. -/
structure SessionSnapshot where
  ledgerAddressNow : Option String
  sameChainNow : Bool
  sameSignerNow : Bool
deriving DecidableEq

/-- The `isStale()` closure used by every handler:
`thisLedgerAddress !== ledgerRef.current?.address ||
 !sameChain.current(thisChainId) || !sameSigner.current(thisEthersSigner)`. -/
def isStaleAt (thisLedgerAddress : String) (now : SessionSnapshot) : Bool :=
  !(decide (now.ledgerAddressNow = some thisLedgerAddress)) ||
    !now.sameChainNow || !now.sameSignerNow

/-- An argument of a contract call made through ethers. -/
inductive Arg where
  | encHandle (h : String)
  | proofBytes (p : String)
  | num (n : Nat)
  | boolean (b : Bool)
deriving DecidableEq

/-- One observable effect of a handler run. -/
inductive Eff where
  | setMsg (m : String)
  | setClearBalance (handle : String) (clear : Nat)
  | setClearMonthlyExpense (handle : String) (clear : Nat)
  | setClearMonthlyBudget (handle : String) (clear : Nat)
  | setHandles (balance expense budget overBudget warning : String)
  | clearHandles
  | setBusy (flag : String) (value : Bool)
  | setDiag (key : String) (value : String)
  | createEncInput (contractAddress userAddress : String) (values : List Nat)
  | callUserDecrypt (handles : List String)
  | callContract (fn : String) (args : List Arg)
  | callRefreshData
deriving DecidableEq

/-- Start-time context of `decryptBalance` (useLedger.tsx lines
220-316): the guards read at entry, the captured values, whether
`FhevmDecryptionSignature.loadOrSign` returns a signature, the
environment at the two `isStale()` checks, and the decrypted value
`userDecrypt` returns for the balance handle. -/
structure DecryptBalanceCtx where
  isRefreshing : Bool
  isDecrypting : Bool
  ledgerAddress : Option String
  hasInstance : Bool
  hasSigner : Bool
  balanceHandle : Option String
  cachedHandle : Option String
  sigOk : Bool
  snap1 : SessionSnapshot
  snap2 : SessionSnapshot
  decryptResult : Nat
deriving DecidableEq

/-- Effect trace of one `decryptBalance()` invocation. -/
def decryptBalanceTrace (c : DecryptBalanceCtx) : List Eff :=
  if c.isRefreshing || c.isDecrypting then []
  else if !(c.ledgerAddress.isSome && c.hasInstance && c.hasSigner
      && c.balanceHandle.isSome) then []
  else
    let addr := c.ledgerAddress.getD ""
    let h := c.balanceHandle.getD ""
    if c.cachedHandle = some h then []
    else if h = ZeroHash then [Eff.setClearBalance h 0]
    else
      [Eff.setBusy "isDecrypting" true, Eff.setMsg "Start decrypting balance..."] ++
      (if !c.sigOk then [Eff.setMsg "Unable to build FHEVM decryption signature"]
       else if isStaleAt addr c.snap1 then [Eff.setMsg "Ignore FHEVM decryption"]
       else
         [Eff.setMsg "Call FHEVM userDecrypt...",
          Eff.callUserDecrypt [h],
          Eff.setMsg "FHEVM userDecrypt completed!"] ++
         (if isStaleAt addr c.snap2 then [Eff.setMsg "Ignore FHEVM decryption"]
          else [Eff.setClearBalance h c.decryptResult,
                Eff.setMsg ("Balance decrypted: " ++ toString c.decryptResult)])) ++
      [Eff.setBusy "isDecrypting" false]

/-- Start-time context of `decryptStats` (useLedger.tsx lines 318-427). -/
structure DecryptStatsCtx where
  isRefreshing : Bool
  isDecrypting : Bool
  ledgerAddress : Option String
  hasInstance : Bool
  hasSigner : Bool
  expenseHandle : Option String
  budgetHandle : Option String
  sigOk : Bool
  snap1 : SessionSnapshot
  snap2 : SessionSnapshot
  expenseResult : Nat
  budgetResult : Nat
deriving DecidableEq

/-- A statistics handle is decrypted only when present and not the
all-zero hash (the `decryptItems` filter in `decryptStats`). -/
def eligibleHandle (x : Option String) : List String :=
  match x with
  | some h => if h = ZeroHash then [] else [h]
  | none => []

/-- Effect trace of one `decryptStats()` invocation. -/
def decryptStatsTrace (c : DecryptStatsCtx) : List Eff :=
  if c.isRefreshing || c.isDecrypting then []
  else if !(c.ledgerAddress.isSome && c.hasInstance && c.hasSigner) then []
  else if c.expenseHandle = none && c.budgetHandle = none then []
  else
    let addr := c.ledgerAddress.getD ""
    let items := eligibleHandle c.expenseHandle ++ eligibleHandle c.budgetHandle
    [Eff.setBusy "isDecrypting" true, Eff.setMsg "Start decrypting statistics..."] ++
    (if !c.sigOk then [Eff.setMsg "Unable to build FHEVM decryption signature"]
     else if isStaleAt addr c.snap1 then [Eff.setMsg "Ignore FHEVM decryption"]
     else
       [Eff.setMsg "Call FHEVM userDecrypt for statistics..."] ++
       (if items = [] then [Eff.setMsg "No statistics data to decrypt"]
        else
          [Eff.callUserDecrypt items, Eff.setMsg "FHEVM userDecrypt completed!"] ++
          (if isStaleAt addr c.snap2 then [Eff.setMsg "Ignore FHEVM decryption"]
           else
             (eligibleHandle c.expenseHandle).map
               (fun h => Eff.setClearMonthlyExpense h c.expenseResult) ++
             (eligibleHandle c.budgetHandle).map
               (fun h => Eff.setClearMonthlyBudget h c.budgetResult) ++
             [Eff.setMsg "Statistics decrypted successfully"]))) ++
    [Eff.setBusy "isDecrypting" false]

/-- Start-time context of `refreshData` (useLedger.tsx lines 141-189).
`snap` is the environment at the commit-time check
`sameChain.current(thisChainId) && thisLedgerAddress ===
ledgerRef.current?.address && sameSigner.current(thisEthersSigner)`. -/
structure RefreshCtx where
  isRefreshing : Bool
  hasChainId : Bool
  ledgerAddress : Option String
  hasSigner : Bool
  fetchOk : Bool
  snap : SessionSnapshot
  balanceH : String
  expenseH : String
  budgetH : String
  overH : String
  warnH : String
deriving DecidableEq

/-- Effect trace of one `refreshData()` invocation. -/
def refreshDataTrace (c : RefreshCtx) : List Eff :=
  if c.isRefreshing then []
  else if !(c.hasChainId && c.ledgerAddress.isSome && c.hasSigner) then
    [Eff.clearHandles]
  else
    let addr := c.ledgerAddress.getD ""
    [Eff.setBusy "isRefreshing" true,
     Eff.callContract "getBalance" [],
     Eff.callContract "getMonthlyExpense" [],
     Eff.callContract "getMonthlyBudget" [],
     Eff.callContract "getIsOverBudget" [],
     Eff.callContract "getIsBudgetWarning" []] ++
    (if c.fetchOk then
       (if c.snap.sameChainNow && decide (c.snap.ledgerAddressNow = some addr)
           && c.snap.sameSignerNow then
          [Eff.setHandles c.balanceH c.expenseH c.budgetH c.overH c.warnH]
        else []) ++
       [Eff.setBusy "isRefreshing" false]
     else
       [Eff.setMsg "Ledger data fetch failed!",
        Eff.setBusy "isRefreshing" false])

/-- Start-time context of `addTransaction` (useLedger.tsx lines
429-540): the guards, the captured chain id and address, the signer
address and encryption results the awaits produce, the environment at
the two `isStale()` checks, and the transaction hash, receipt status
and current month and timestamp. -/
structure AddTxCtx where
  isRefreshing : Bool
  isSubmitting : Bool
  ledgerAddress : Option String
  hasInstance : Bool
  hasSigner : Bool
  chainIdVal : Option Nat
  userAddr : String
  encHandle : String
  encProof : String
  snap1 : SessionSnapshot
  snap2 : SessionSnapshot
  txHash : String
  receiptStatus : Nat
  nowMonth : Nat
  nowTimestamp : Nat
deriving DecidableEq

/-- Effect trace of one `addTransaction(amount, isIncome, category,
categoryKey)` invocation, on the exception-free path. -/
def addTransactionTrace (c : AddTxCtx) (amount : Nat) (isIncome : Bool)
    (category categoryKey : Nat) : List Eff :=
  if c.isRefreshing || c.isSubmitting then []
  else if !(c.ledgerAddress.isSome && c.hasInstance && c.hasSigner) then []
  else
    let addr := c.ledgerAddress.getD ""
    [Eff.setBusy "isSubmitting" true,
     Eff.setMsg "Starting transaction encryption...",
     Eff.setDiag "debugEncryptionContractAddress" addr,
     Eff.setDiag "debugEncryptionUserAddress" c.userAddr,
     Eff.setDiag "debugEncryptionChainId" (toString (c.chainIdVal.getD 0)),
     Eff.setDiag "lastAddAmount" (toString amount),
     Eff.setDiag "lastAddIsIncome" (toString isIncome),
     Eff.setDiag "lastAddCategory" (toString category),
     Eff.setDiag "lastAddCategoryKey" (toString categoryKey),
     Eff.createEncInput addr c.userAddr [amount],
     Eff.setDiag "lastAddAmountHandle" c.encHandle,
     Eff.setDiag "lastAddAmountProof" c.encProof] ++
    (if isStaleAt addr c.snap1 then [Eff.setMsg "Ignore transaction submission"]
     else
       [Eff.setMsg "Submitting transaction...",
        Eff.setDiag "lastAddMonth" (toString c.nowMonth),
        Eff.setDiag "lastAddTimestamp" (toString c.nowTimestamp),
        Eff.callContract "addTransaction"
          [Arg.encHandle c.encHandle, Arg.num c.nowTimestamp, Arg.num category,
           Arg.boolean isIncome, Arg.num categoryKey, Arg.num c.nowMonth,
           Arg.proofBytes c.encProof],
        Eff.setMsg ("Wait for tx:" ++ c.txHash ++ "..."),
        Eff.setDiag "lastAddTxHash" c.txHash,
        Eff.setMsg ("Transaction completed status=" ++ toString c.receiptStatus),
        Eff.setDiag "lastAddReceiptStatus" (toString c.receiptStatus)] ++
       (if isStaleAt addr c.snap2 then [Eff.setMsg "Ignore transaction submission"]
        else [Eff.callRefreshData])) ++
    [Eff.setBusy "isSubmitting" false]

/-- Start-time context of `setBudget` (useLedger.tsx lines 542-627). -/
structure SetBudgetCtx where
  isRefreshing : Bool
  isSubmitting : Bool
  ledgerAddress : Option String
  hasInstance : Bool
  hasSigner : Bool
  userAddr : String
  encHandle : String
  encProof : String
  snap1 : SessionSnapshot
  snap2 : SessionSnapshot
  txHash : String
  receiptStatus : Nat
deriving DecidableEq

/-- Effect trace of one `setBudget(budget)` invocation, on the
exception-free path. -/
def setBudgetTrace (c : SetBudgetCtx) (budget : Nat) : List Eff :=
  if c.isRefreshing || c.isSubmitting then []
  else if !(c.ledgerAddress.isSome && c.hasInstance && c.hasSigner) then []
  else
    let addr := c.ledgerAddress.getD ""
    [Eff.setBusy "isSubmitting" true,
     Eff.setMsg "Starting budget encryption...",
     Eff.createEncInput addr c.userAddr [budget]] ++
    (if isStaleAt addr c.snap1 then [Eff.setMsg "Ignore budget submission"]
     else
       [Eff.setMsg "Setting budget...",
        Eff.callContract "setMonthlyBudget"
          [Arg.encHandle c.encHandle, Arg.proofBytes c.encProof],
        Eff.setMsg ("Wait for tx:" ++ c.txHash ++ "..."),
        Eff.setMsg ("Budget set completed status=" ++ toString c.receiptStatus)] ++
       (if isStaleAt addr c.snap2 then [Eff.setMsg "Ignore budget submission"]
        else [Eff.callRefreshData])) ++
    [Eff.setBusy "isSubmitting" false]

/-!
`getLedgerByChainId` and `isDeployed` (useLedger.tsx lines 34-53 and
130-135).  The generated `LedgerAddresses` table is not under src/, so
it is an arbitrary parameter: a partial map from chain id to entry.
-/

/-- One entry of the generated `LedgerAddresses` table. -/
structure LedgerEntry where
  address : String
  chainId : Option Nat
  chainName : Option String
deriving DecidableEq

/-- Marker for the generated `LedgerABI` constant. -/
def LedgerABI : String := "LedgerABI"

/-- The object `getLedgerByChainId` returns. -/
structure LedgerInfoType where
  abi : String
  address : Option String
  chainId : Option Nat
  chainName : Option String
deriving DecidableEq

/-- Function `getLedgerByChainId` (useLedger.tsx lines 34-53).  Note the
JavaScript guard `if (!chainId)` is also taken for chain id 0, not
just for `undefined`. -/
def getLedgerByChainId (entries : Nat → Option LedgerEntry)
    (chainId : Option Nat) : LedgerInfoType :=
  match chainId with
  | none => { abi := LedgerABI, address := none, chainId := none, chainName := none }
  | some cid =>
    if cid = 0 then
      { abi := LedgerABI, address := none, chainId := none, chainName := none }
    else
      match entries cid with
      | none =>
        { abi := LedgerABI, address := none, chainId := some cid, chainName := none }
      | some entry =>
        if entry.address = ZeroAddress then
          { abi := LedgerABI, address := none, chainId := some cid, chainName := none }
        else
          { abi := LedgerABI, address := some entry.address,
            chainId := some (entry.chainId.getD cid), chainName := entry.chainName }

/-- JavaScript truthiness of an optional string (`Boolean(x)`):
false for `undefined` and for the empty string. -/
def jsTruthyStr (x : Option String) : Bool :=
  match x with
  | none => false
  | some s => !(decide (s = ""))

/-- The hook value `isDeployed` (useLedger.tsx lines 130-135):
`Boolean(ledger.address) && ledger.address !== ethers.ZeroAddress`
(the `!ledger` branch is unreachable, `useMemo` always returns an
object). -/
def isDeployedOf (info : LedgerInfoType) : Bool :=
  jsTruthyStr info.address && !(decide (info.address = some ZeroAddress))

/-!
`fhevmMockCreateInstance` (frontend/fhevm/internal/mock/fhevmMock.ts
lines 13-63).  The on-chain `eip712Domain()` views are modelled by a
function from contract address to the returned domain tuple, encoded
as a list of component strings in ABI order (fields, name, version,
chainId, verifyingContract, salt, extensions); the verifying contract
address is component 4.
-/

/-- The `metadata` parameter of `fhevmMockCreateInstance`. -/
structure MockMetadata where
  ACLAddress : String
  InputVerifierAddress : String
  KMSVerifierAddress : String
deriving DecidableEq

/-- The configuration object passed to `MockFhevmInstance.create`. -/
structure MockInstanceConfig where
  aclContractAddress : String
  chainId : Nat
  gatewayChainId : Nat
  inputVerifierContractAddress : String
  kmsContractAddress : String
  verifyingContractAddressDecryption : String
  verifyingContractAddressInputVerification : String
deriving DecidableEq

/-- Function `fhevmMockCreateInstance`: query `eip712Domain()` of the
InputVerifier and KMSVerifier contracts named in the metadata, take
component 4 of each domain as the verifying-contract address, and
build the mock instance configuration with gateway chain id 55815. -/
def fhevmMockCreateInstance (eip712DomainOf : String → List String)
    (chainId : Nat) (metadata : MockMetadata) : MockInstanceConfig :=
  let inputDomain := eip712DomainOf metadata.InputVerifierAddress
  let vInput := inputDomain.getD 4 ""
  let kmsDomain := eip712DomainOf metadata.KMSVerifierAddress
  let vDecryption := kmsDomain.getD 4 ""
  { aclContractAddress := metadata.ACLAddress,
    chainId := chainId,
    gatewayChainId := 55815,
    inputVerifierContractAddress := metadata.InputVerifierAddress,
    kmsContractAddress := metadata.KMSVerifierAddress,
    verifyingContractAddressDecryption := vDecryption,
    verifyingContractAddressInputVerification := vInput }

/-!
Storage shape of the contract (for the encrypted-versus-plaintext
claim): a table transcribing the declared type of every struct field
and mapping value of Ledger.sol, and a well-formedness predicate
saying every value held under a euint32 handle is a 32-bit number,
preserved by the contract operations.
-/

/-- Whether a storage slot holds a ciphertext handle or a plaintext value. -/
inductive FieldKind where
  | encrypted
  | plaintext
deriving DecidableEq

/-- Declared field types of struct `UserAccount` (Ledger.sol lines
12-19): euint32 / ebool fields are encrypted, `lastUpdateMonth` is a
plaintext uint256. -/
def userAccountFieldKinds : List (String × FieldKind) :=
  [("balance", FieldKind.encrypted),
   ("monthlyExpense", FieldKind.encrypted),
   ("monthlyBudget", FieldKind.encrypted),
   ("isOverBudget", FieldKind.encrypted),
   ("isBudgetWarning", FieldKind.encrypted),
   ("lastUpdateMonth", FieldKind.plaintext)]

/-- Declared field types of struct `Transaction` (Ledger.sol lines
22-28): only `amount` is a euint32. -/
def transactionFieldKinds : List (String × FieldKind) :=
  [("amount", FieldKind.encrypted),
   ("timestamp", FieldKind.plaintext),
   ("category", FieldKind.plaintext),
   ("isIncome", FieldKind.plaintext),
   ("month", FieldKind.plaintext)]

/-- The value type of the `categoryTotals` mapping (Ledger.sol line
37) is euint32. -/
def categoryTotalsValueKind : FieldKind := FieldKind.encrypted

namespace Ledger

/-- Every value stored under a euint32 handle is a 32-bit number:
holds for the three numeric account fields, every transaction amount
and every category total. -/
def wfState (s : LedgerState) : Prop :=
  ∀ addr : Nat,
    (s.accounts addr).balance.getD 0 < U32 ∧
    (s.accounts addr).monthlyExpense.getD 0 < U32 ∧
    (s.accounts addr).monthlyBudget.getD 0 < U32 ∧
    (∀ t ∈ s.transactions addr, t.amount < U32) ∧
    (∀ k : Nat, (s.categoryTotals addr k).getD 0 < U32)

end Ledger

/-!
Concrete contexts used to exercise the frontend handler traces.
-/

/-- A snapshot in which all three staleness comparisons still match
for contract address 0xc0ffee. -/
def snapGood : SessionSnapshot :=
  { ledgerAddressNow := some "0xc0ffee", sameChainNow := true, sameSignerNow := true }

/-- A snapshot in which the current contract address has changed. -/
def snapMovedAddress : SessionSnapshot :=
  { ledgerAddressNow := some "0xother", sameChainNow := true, sameSignerNow := true }

/-- An `addTransaction` run that becomes stale at the first check:
the contract address changes while the input is being encrypted. -/
def ctxAddStale : AddTxCtx :=
  { isRefreshing := false, isSubmitting := false,
    ledgerAddress := some "0xc0ffee", hasInstance := true, hasSigner := true,
    chainIdVal := some 31337, userAddr := "0xuser",
    encHandle := "0xhandle", encProof := "0xproof",
    snap1 := snapMovedAddress, snap2 := snapMovedAddress,
    txHash := "0xtx", receiptStatus := 1, nowMonth := 5, nowTimestamp := 1700000000 }

/-- An `addTransaction` run that never goes stale. -/
def ctxAddFresh : AddTxCtx :=
  { ctxAddStale with snap1 := snapGood, snap2 := snapGood }

/-- A `setBudget` run that never goes stale. -/
def ctxBudgetFresh : SetBudgetCtx :=
  { isRefreshing := false, isSubmitting := false,
    ledgerAddress := some "0xc0ffee", hasInstance := true, hasSigner := true,
    userAddr := "0xuser", encHandle := "0xhandle", encProof := "0xproof",
    snap1 := snapGood, snap2 := snapGood, txHash := "0xtx", receiptStatus := 1 }

/-- A `decryptBalance` run on a fresh non-zero uncached handle. -/
def ctxDecryptFresh : DecryptBalanceCtx :=
  { isRefreshing := false, isDecrypting := false,
    ledgerAddress := some "0xc0ffee", hasInstance := true, hasSigner := true,
    balanceHandle := some "0xbal", cachedHandle := none, sigOk := true,
    snap1 := snapGood, snap2 := snapGood, decryptResult := 42 }

/-- A `decryptBalance` run whose balance handle is the all-zero hash. -/
def ctxDecryptZero : DecryptBalanceCtx :=
  { ctxDecryptFresh with balanceHandle := some ZeroHash }

/-- A `decryptStats` run with both statistics handles present. -/
def ctxStatsFresh : DecryptStatsCtx :=
  { isRefreshing := false, isDecrypting := false,
    ledgerAddress := some "0xc0ffee", hasInstance := true, hasSigner := true,
    expenseHandle := some "0xexp", budgetHandle := some "0xbud", sigOk := true,
    snap1 := snapGood, snap2 := snapGood, expenseResult := 7, budgetResult := 9 }

/-- A `refreshData` run that succeeds and commits. -/
def ctxRefreshFresh : RefreshCtx :=
  { isRefreshing := false, hasChainId := true, ledgerAddress := some "0xc0ffee",
    hasSigner := true, fetchOk := true, snap := snapGood,
    balanceH := "0xbal", expenseH := "0xexp", budgetH := "0xbud",
    overH := "0xover", warnH := "0xwarn" }

/-- A concrete `LedgerAddresses` table with one real deployment. -/
def entriesDemo : Nat → Option LedgerEntry := fun cid =>
  if cid = 31337 then
    some { address := "0xc0ffee", chainId := some 31337, chainName := some "hardhat" }
  else none

/-! ## Helper lemmas -/

lemma wrap32_lt (n : Nat) : wrap32 n < U32 :=
  Nat.mod_lt _ (by norm_num [U32])

lemma ensure_balance_getD (a : UserAccount) :
    (Ledger.ensureNumericInitialized a).balance.getD 0 = a.balance.getD 0 := by
  cases h : a.balance <;> simp [Ledger.ensureNumericInitialized, h]

lemma ensure_monthlyExpense_getD (a : UserAccount) :
    (Ledger.ensureNumericInitialized a).monthlyExpense.getD 0 = a.monthlyExpense.getD 0 := by
  cases h : a.monthlyExpense <;> simp [Ledger.ensureNumericInitialized, h]

lemma ensure_monthlyBudget_getD (a : UserAccount) :
    (Ledger.ensureNumericInitialized a).monthlyBudget.getD 0 = a.monthlyBudget.getD 0 := by
  cases h : a.monthlyBudget <;> simp [Ledger.ensureNumericInitialized, h]

lemma ensure_lastUpdateMonth (a : UserAccount) :
    (Ledger.ensureNumericInitialized a).lastUpdateMonth = a.lastUpdateMonth := rfl

lemma updateBudgetFlags_flags (acct : UserAccount) :
    (Ledger.updateBudgetFlags acct).isOverBudget
      = some (decide ((Ledger.updateBudgetFlags acct).monthlyExpense.getD 0 >
          (Ledger.updateBudgetFlags acct).monthlyBudget.getD 0)) ∧
    (Ledger.updateBudgetFlags acct).isBudgetWarning
      = some (decide ((Ledger.updateBudgetFlags acct).monthlyExpense.getD 0 * 10 % U32 >
          (Ledger.updateBudgetFlags acct).monthlyBudget.getD 0 * 8 % U32)) := by
  constructor <;> rfl

/-! ## Claims -/

/-- Claim C9: `fhevmMockCreateInstance` builds the mock instance
configuration with gateway chain id 55815 and takes the EIP-712
verifying-contract addresses for input verification and decryption
from component 4 of the on-chain `eip712Domain()` of the
InputVerifier and KMSVerifier contracts named in the metadata, not
from the metadata addresses themselves; the remaining fields come
from the metadata and the chain id parameter. -/
theorem fhevmMock_config_spec (dom : String → List String) (chainId : Nat)
    (md : MockMetadata) :
    (fhevmMockCreateInstance dom chainId md).gatewayChainId = 55815 ∧
    (fhevmMockCreateInstance dom chainId md).verifyingContractAddressInputVerification
      = (dom md.InputVerifierAddress).getD 4 "" ∧
    (fhevmMockCreateInstance dom chainId md).verifyingContractAddressDecryption
      = (dom md.KMSVerifierAddress).getD 4 "" ∧
    (fhevmMockCreateInstance dom chainId md).aclContractAddress = md.ACLAddress ∧
    (fhevmMockCreateInstance dom chainId md).chainId = chainId ∧
    (fhevmMockCreateInstance dom chainId md).inputVerifierContractAddress
      = md.InputVerifierAddress ∧
    (fhevmMockCreateInstance dom chainId md).kmsContractAddress
      = md.KMSVerifierAddress ∧
    ((fhevmMockCreateInstance (fun _ => ["f", "n", "v", "1", "0xdomainverifier"]) 1
        { ACLAddress := "0xacl", InputVerifierAddress := "0xinput",
          KMSVerifierAddress := "0xkms" }).verifyingContractAddressInputVerification
      = "0xdomainverifier" ∧ "0xdomainverifier" ≠ "0xinput") :=
  ⟨rfl, rfl, rfl, rfl, rfl, rfl, rfl, rfl, by decide⟩

/-- Claim C8: `getLedgerByChainId` resolves a deployment address only
from a `LedgerAddresses` entry whose address is not the zero address;
with an undefined chain id, a missing entry, or a zero-address entry
it returns the ABI with no address; and `isDeployed` is true exactly
when an address was resolved (entry addresses being nonempty
`0x`-strings). -/
theorem getLedgerByChainId_spec (entries : Nat → Option LedgerEntry)
    (chainId : Option Nat) :
    ((getLedgerByChainId entries none).address = none) ∧
    (∀ cid, entries cid = none →
       (getLedgerByChainId entries (some cid)).address = none) ∧
    (∀ cid e, entries cid = some e → e.address = ZeroAddress →
       (getLedgerByChainId entries (some cid)).address = none) ∧
    (∀ c a, (getLedgerByChainId entries c).address = some a →
       ∃ cid e, c = some cid ∧ entries cid = some e ∧
         e.address ≠ ZeroAddress ∧ a = e.address) ∧
    (∀ cid e, cid ≠ 0 → entries cid = some e → e.address ≠ ZeroAddress →
       (getLedgerByChainId entries (some cid)).address = some e.address) ∧
    ((∀ cid e, entries cid = some e → e.address ≠ "") →
       (isDeployedOf (getLedgerByChainId entries chainId) = true ↔
         (getLedgerByChainId entries chainId).address ≠ none)) := by
  refine ⟨rfl, ?_, ?_, ?_, ?_, ?_⟩
  · intro cid hcid
    by_cases h0 : cid = 0 <;> simp [getLedgerByChainId, h0, hcid]
  · intro cid e he hz
    by_cases h0 : cid = 0 <;> simp [getLedgerByChainId, h0, he, hz]
  · intro c a ha
    cases c with
    | none => simp [getLedgerByChainId] at ha
    | some cid =>
      by_cases h0 : cid = 0
      · simp [getLedgerByChainId, h0] at ha
      · cases he : entries cid with
        | none => simp [getLedgerByChainId, h0, he] at ha
        | some e =>
          by_cases hz : e.address = ZeroAddress
          · simp [getLedgerByChainId, h0, he, hz] at ha
          · refine ⟨cid, e, rfl, he, hz, ?_⟩
            simp [getLedgerByChainId, h0, he, hz] at ha
            exact ha.symm
  · intro cid e h0 he hz
    simp [getLedgerByChainId, h0, he, hz]
  · intro hne
    cases chainId with
    | none => simp [getLedgerByChainId, isDeployedOf, jsTruthyStr]
    | some cid =>
      by_cases h0 : cid = 0
      · simp [getLedgerByChainId, h0, isDeployedOf, jsTruthyStr]
      · cases he : entries cid with
        | none => simp [getLedgerByChainId, h0, he, isDeployedOf, jsTruthyStr]
        | some e =>
          by_cases hz : e.address = ZeroAddress
          · simp [getLedgerByChainId, h0, he, hz, isDeployedOf, jsTruthyStr]
          · have hee : e.address ≠ "" := hne cid e he
            simp [getLedgerByChainId, h0, he, hz, isDeployedOf, jsTruthyStr, hee]

/-- Witness for claim C8 at a concrete table: on the demo table,
chain 31337 resolves address 0xc0ffee and is deployed. -/
theorem getLedgerByChainId_spec_witness :
    (getLedgerByChainId entriesDemo (some 31337)).address = some "0xc0ffee" ∧
    (isDeployedOf (getLedgerByChainId entriesDemo (some 31337)) = true ↔
      (getLedgerByChainId entriesDemo (some 31337)).address ≠ none) := by
  refine ⟨?_, ?_⟩
  · have h := (getLedgerByChainId_spec entriesDemo (some 31337)).2.2.2.2.1 31337
      { address := "0xc0ffee", chainId := some 31337, chainName := some "hardhat" }
      (by decide) (by decide) (by decide)
    exact h
  · exact (getLedgerByChainId_spec entriesDemo (some 31337)).2.2.2.2.2
      (by intro cid e he
          by_cases h : cid = 31337
          · subst h
            simp [entriesDemo] at he
            simp [← he]
          · simp [entriesDemo, h] at he)

/-- Claim C3: `Ledger.addTransaction` appends the new transaction to
the caller list; adds the amount to the balance modulo 2^32 for an
income and subtracts it modulo 2^32 for an expense; for an expense,
accumulates `monthlyExpense` modulo 2^32 when the month equals the
stored `lastUpdateMonth`, and otherwise resets `monthlyExpense` to
exactly the amount and `lastUpdateMonth` to the month; increases the
category total by the amount modulo 2^32; and an income leaves
`monthlyExpense` and `lastUpdateMonth` unchanged. -/
theorem addTransaction_spec (s : LedgerState)
    (caller amountExt timestamp category categoryKey month : Nat)
    (isIncome : Bool) (hamt : amountExt < U32) (s' : LedgerState)
    (hs : s' = Ledger.addTransaction s caller amountExt timestamp category
      isIncome categoryKey month) :
    (s'.transactions caller = s.transactions caller ++
       [{ amount := amountExt, timestamp := timestamp, category := category,
          isIncome := isIncome, month := month }]) ∧
    (((s'.accounts caller).balance.getD 0 : Int)
       = (if isIncome
          then (((s.accounts caller).balance.getD 0 : Int) + amountExt) % (U32 : Int)
          else (((s.accounts caller).balance.getD 0 : Int) - amountExt) % (U32 : Int))) ∧
    (isIncome = false → month = (s.accounts caller).lastUpdateMonth →
       (s'.accounts caller).monthlyExpense.getD 0
         = ((s.accounts caller).monthlyExpense.getD 0 + amountExt) % U32 ∧
       (s'.accounts caller).lastUpdateMonth = (s.accounts caller).lastUpdateMonth) ∧
    (isIncome = false → month ≠ (s.accounts caller).lastUpdateMonth →
       (s'.accounts caller).monthlyExpense.getD 0 = amountExt ∧
       (s'.accounts caller).lastUpdateMonth = month) ∧
    (s'.categoryTotals caller categoryKey
       = some (((s.categoryTotals caller categoryKey).getD 0 + amountExt) % U32)) ∧
    (isIncome = true →
       (s'.accounts caller).monthlyExpense.getD 0
         = (s.accounts caller).monthlyExpense.getD 0 ∧
       (s'.accounts caller).lastUpdateMonth
         = (s.accounts caller).lastUpdateMonth) := by
  subst hs
  have hamt' : amountExt < 4294967296 := by simpa [U32] using hamt
  have hmod : amountExt % 4294967296 = amountExt := Nat.mod_eq_of_lt hamt'
  refine ⟨?_, ?_, ?_, ?_, ?_, ?_⟩
  · simp [Ledger.addTransaction, Ledger.fromExternal, wrap32, U32, hmod]
  · by_cases hm : month = (s.accounts caller).lastUpdateMonth <;>
      cases isIncome <;>
        cases hb : (s.accounts caller).balance <;>
          (simp [Ledger.addTransaction, Ledger.updateBudgetFlags,
            Ledger.ensureNumericInitialized, Ledger.fheSub, Ledger.fheAdd,
            Ledger.fromExternal, wrap32, U32, hm, hb] <;> omega)
  · intro hinc hmonth
    subst hinc
    cases he : (s.accounts caller).monthlyExpense <;>
      simp [Ledger.addTransaction, Ledger.updateBudgetFlags,
        Ledger.ensureNumericInitialized, Ledger.fheAdd, Ledger.fromExternal,
        wrap32, U32, hmod, hmonth, he]
  · intro hinc hmonth
    subst hinc
    simp [Ledger.addTransaction, Ledger.updateBudgetFlags,
      Ledger.ensureNumericInitialized, Ledger.fromExternal, wrap32, U32,
      hmod, hmonth]
  · cases hct : s.categoryTotals caller categoryKey <;>
      simp [Ledger.addTransaction, Ledger.fheAdd, Ledger.fromExternal, wrap32,
        U32, hmod, hct]
  · intro hinc
    subst hinc
    by_cases hm : month = (s.accounts caller).lastUpdateMonth <;>
      cases he : (s.accounts caller).monthlyExpense <;>
        simp [Ledger.addTransaction, Ledger.updateBudgetFlags,
          Ledger.ensureNumericInitialized, hm, he]

/-- Witness for claim C3 at a concrete input: one expense of 100 in
month 3 on the fresh state. -/
theorem addTransaction_spec_witness :
    100 < U32 ∧
    (Ledger.addTransaction Ledger.initialState 0 100 1000 2 false 2 3).transactions 0
      = [{ amount := 100, timestamp := 1000, category := 2, isIncome := false,
           month := 3 }] ∧
    ((Ledger.addTransaction Ledger.initialState 0 100 1000 2 false 2 3).accounts 0).monthlyExpense.getD 0
      = 100 := by
  have h := addTransaction_spec Ledger.initialState 0 100 1000 2 2 3 false
    (by norm_num [U32]) _ rfl
  refine ⟨by norm_num [U32], ?_, ?_⟩
  · have h1 := h.1
    simpa [Ledger.initialState] using h1
  · exact (h.2.2.2.1 rfl (by simp [Ledger.initialState, Ledger.defaultAccount])).1

/-- Claim C4: after `addTransaction` and after `setMonthlyBudget` the
caller `isOverBudget` flag holds the truth value of
`monthlyExpense > monthlyBudget` and `isBudgetWarning` the truth
value of `monthlyExpense * 10 % 2^32 > monthlyBudget * 8 % 2^32`
(wrapping euint32 products), which coincides with the intended
`expense * 10 > budget * 8` comparison when neither product
overflows; at `monthlyExpense = monthlyBudget = 2^31` the wrapped
comparison and the intended one disagree. -/
theorem updateBudgetFlags_spec (s : LedgerState)
    (caller amountExt timestamp category categoryKey month budgetExt : Nat)
    (isIncome : Bool) :
    (∀ s', s' = Ledger.addTransaction s caller amountExt timestamp category
        isIncome categoryKey month →
      (s'.accounts caller).isOverBudget
        = some (decide ((s'.accounts caller).monthlyExpense.getD 0 >
            (s'.accounts caller).monthlyBudget.getD 0)) ∧
      (s'.accounts caller).isBudgetWarning
        = some (decide ((s'.accounts caller).monthlyExpense.getD 0 * 10 % U32 >
            (s'.accounts caller).monthlyBudget.getD 0 * 8 % U32)) ∧
      ((s'.accounts caller).monthlyExpense.getD 0 * 10 < U32 →
       (s'.accounts caller).monthlyBudget.getD 0 * 8 < U32 →
       (s'.accounts caller).isBudgetWarning
         = some (decide ((s'.accounts caller).monthlyExpense.getD 0 * 10 >
             (s'.accounts caller).monthlyBudget.getD 0 * 8)))) ∧
    (∀ s', s' = Ledger.setMonthlyBudget s caller budgetExt →
      (s'.accounts caller).isOverBudget
        = some (decide ((s'.accounts caller).monthlyExpense.getD 0 >
            (s'.accounts caller).monthlyBudget.getD 0)) ∧
      (s'.accounts caller).isBudgetWarning
        = some (decide ((s'.accounts caller).monthlyExpense.getD 0 * 10 % U32 >
            (s'.accounts caller).monthlyBudget.getD 0 * 8 % U32)) ∧
      ((s'.accounts caller).monthlyExpense.getD 0 * 10 < U32 →
       (s'.accounts caller).monthlyBudget.getD 0 * 8 < U32 →
       (s'.accounts caller).isBudgetWarning
         = some (decide ((s'.accounts caller).monthlyExpense.getD 0 * 10 >
             (s'.accounts caller).monthlyBudget.getD 0 * 8)))) ∧
    (((Ledger.setMonthlyBudget
        (Ledger.addTransaction Ledger.initialState 0 2147483648 0 0 false 0 1)
        0 2147483648).accounts 0).monthlyExpense.getD 0 = 2147483648 ∧
     ((Ledger.setMonthlyBudget
        (Ledger.addTransaction Ledger.initialState 0 2147483648 0 0 false 0 1)
        0 2147483648).accounts 0).monthlyBudget.getD 0 = 2147483648 ∧
     ((Ledger.setMonthlyBudget
        (Ledger.addTransaction Ledger.initialState 0 2147483648 0 0 false 0 1)
        0 2147483648).accounts 0).isBudgetWarning = some false ∧
     2147483648 * 10 > 2147483648 * 8) := by
  refine ⟨?_, ?_, by decide⟩
  · intro s' hs'
    subst hs'
    obtain ⟨acct, hacct⟩ : ∃ acct,
        (Ledger.addTransaction s caller amountExt timestamp category isIncome
          categoryKey month).accounts caller = Ledger.updateBudgetFlags acct :=
      ⟨_, by simp only [Ledger.addTransaction]; rfl⟩
    rw [hacct]
    refine ⟨(updateBudgetFlags_flags acct).1, (updateBudgetFlags_flags acct).2, ?_⟩
    intro h10 h8
    rw [(updateBudgetFlags_flags acct).2, Nat.mod_eq_of_lt h10, Nat.mod_eq_of_lt h8]
  · intro s' hs'
    subst hs'
    obtain ⟨acct, hacct⟩ : ∃ acct,
        (Ledger.setMonthlyBudget s caller budgetExt).accounts caller
          = Ledger.updateBudgetFlags acct :=
      ⟨_, by simp only [Ledger.setMonthlyBudget]; rfl⟩
    rw [hacct]
    refine ⟨(updateBudgetFlags_flags acct).1, (updateBudgetFlags_flags acct).2, ?_⟩
    intro h10 h8
    rw [(updateBudgetFlags_flags acct).2, Nat.mod_eq_of_lt h10, Nat.mod_eq_of_lt h8]

/-- Witness for claim C4 at a concrete input: after setting a budget
of 1000 and spending 900 in the same month, the warning flag is set
and matches the unwrapped 80 percent comparison. -/
theorem updateBudgetFlags_spec_witness :
    ((Ledger.setMonthlyBudget (Ledger.addTransaction Ledger.initialState 0 900
        0 0 false 0 1) 0 1000).accounts 0).isBudgetWarning
      = some (decide ((900 : Nat) * 10 > 1000 * 8)) := by
  have h := (updateBudgetFlags_spec
      (Ledger.addTransaction Ledger.initialState 0 900 0 0 false 0 1)
      0 0 0 0 0 1 1000 false).2.1 _ rfl
  have h3 := h.2.2 (by decide) (by decide)
  rw [h3]
  decide

/-- Claim C7: `setMonthlyBudget` changes only the caller
`monthlyBudget`, `isOverBudget` and `isBudgetWarning` (apart from
initializing uninitialized handles to encrypted zero): the plaintext
balance and monthly expense, the `lastUpdateMonth`, the transaction
lists, all category totals, and every other account are unchanged. -/
theorem setMonthlyBudget_frame (s : LedgerState) (caller budgetExt a : Nat)
    (ha : a ≠ caller) (s' : LedgerState)
    (hs : s' = Ledger.setMonthlyBudget s caller budgetExt) :
    (s'.accounts caller).balance.getD 0 = (s.accounts caller).balance.getD 0 ∧
    (s'.accounts caller).monthlyExpense.getD 0
      = (s.accounts caller).monthlyExpense.getD 0 ∧
    (s'.accounts caller).lastUpdateMonth = (s.accounts caller).lastUpdateMonth ∧
    s'.transactions = s.transactions ∧
    s'.categoryTotals = s.categoryTotals ∧
    s'.accounts a = s.accounts a ∧
    (s'.accounts caller).monthlyBudget = some (Ledger.fromExternal budgetExt) := by
  subst hs
  refine ⟨?_, ?_, ?_, rfl, rfl, ?_, ?_⟩
  · cases hb : (s.accounts caller).balance <;>
      simp [Ledger.setMonthlyBudget, Ledger.updateBudgetFlags,
        Ledger.ensureNumericInitialized, hb]
  · cases he : (s.accounts caller).monthlyExpense <;>
      simp [Ledger.setMonthlyBudget, Ledger.updateBudgetFlags,
        Ledger.ensureNumericInitialized, he]
  · simp [Ledger.setMonthlyBudget, Ledger.updateBudgetFlags,
      Ledger.ensureNumericInitialized]
  · simp [Ledger.setMonthlyBudget, ha]
  · simp [Ledger.setMonthlyBudget, Ledger.updateBudgetFlags,
      Ledger.ensureNumericInitialized, Ledger.fromExternal, wrap32]

/-- Witness for claim C7 at a concrete input: setting a budget of 500
for account 0 leaves account 1 untouched and stores the budget. -/
theorem setMonthlyBudget_frame_witness :
    ((Ledger.setMonthlyBudget Ledger.initialState 0 500).accounts 1
       = Ledger.initialState.accounts 1) ∧
    ((Ledger.setMonthlyBudget Ledger.initialState 0 500).accounts 0).monthlyBudget
       = some (Ledger.fromExternal 500) := by
  have h := setMonthlyBudget_frame Ledger.initialState 0 500 1 (by decide) _ rfl
  exact ⟨h.2.2.2.2.2.1, h.2.2.2.2.2.2⟩

/-- Claim C5: the contract stores balance, monthly expense, monthly
budget, the two budget flags, the category totals and every
transaction amount as encrypted values, while transaction timestamp,
category, isIncome and month, and the account `lastUpdateMonth`, are
plaintext (the declared-storage table); and after every
`addTransaction` or `setMonthlyBudget` every value held under a
euint32 handle is still a 32-bit number. -/
theorem storageShape_spec :
    ((("balance", FieldKind.encrypted) ∈ userAccountFieldKinds) ∧
     (("monthlyExpense", FieldKind.encrypted) ∈ userAccountFieldKinds) ∧
     (("monthlyBudget", FieldKind.encrypted) ∈ userAccountFieldKinds) ∧
     (("isOverBudget", FieldKind.encrypted) ∈ userAccountFieldKinds) ∧
     (("isBudgetWarning", FieldKind.encrypted) ∈ userAccountFieldKinds) ∧
     (("lastUpdateMonth", FieldKind.plaintext) ∈ userAccountFieldKinds) ∧
     (("amount", FieldKind.encrypted) ∈ transactionFieldKinds) ∧
     (("timestamp", FieldKind.plaintext) ∈ transactionFieldKinds) ∧
     (("category", FieldKind.plaintext) ∈ transactionFieldKinds) ∧
     (("isIncome", FieldKind.plaintext) ∈ transactionFieldKinds) ∧
     (("month", FieldKind.plaintext) ∈ transactionFieldKinds) ∧
     categoryTotalsValueKind = FieldKind.encrypted) ∧
    (∀ (s : LedgerState) (caller amountExt timestamp category categoryKey month : Nat)
       (isIncome : Bool), Ledger.wfState s →
       Ledger.wfState (Ledger.addTransaction s caller amountExt timestamp
         category isIncome categoryKey month)) ∧
    (∀ (s : LedgerState) (caller budgetExt : Nat), Ledger.wfState s →
       Ledger.wfState (Ledger.setMonthlyBudget s caller budgetExt)) := by
  refine ⟨by decide, ?_, ?_⟩
  · intro s caller amountExt timestamp category categoryKey month isIncome hwf addr
    obtain ⟨hb2, he2, hbu2, htx2, hct2⟩ := hwf caller
    by_cases haddr : addr = caller
    · subst haddr
      refine ⟨?_, ?_, ?_, ?_, ?_⟩
      · by_cases hm : month = (s.accounts addr).lastUpdateMonth <;>
          cases isIncome <;>
            simp [Ledger.addTransaction, Ledger.updateBudgetFlags,
              Ledger.ensureNumericInitialized, Ledger.fheAdd, Ledger.fheSub,
              Ledger.fromExternal, hm, wrap32_lt]
      · by_cases hm : month = (s.accounts addr).lastUpdateMonth <;>
          cases isIncome <;>
            cases he : (s.accounts addr).monthlyExpense <;>
              simp_all [Ledger.addTransaction, Ledger.updateBudgetFlags,
                Ledger.ensureNumericInitialized, Ledger.fheAdd,
                Ledger.fromExternal, wrap32_lt]
      · by_cases hm : month = (s.accounts addr).lastUpdateMonth <;>
          cases isIncome <;>
            cases hbu : (s.accounts addr).monthlyBudget <;>
              simp_all [Ledger.addTransaction, Ledger.updateBudgetFlags,
                Ledger.ensureNumericInitialized, Ledger.fromExternal, wrap32_lt]
      · simp only [Ledger.addTransaction]
        intro t ht
        simp only [eq_self_iff_true, if_true, List.mem_append,
          List.mem_singleton] at ht
        rcases ht with h1 | h2
        · exact htx2 t h1
        · subst h2
          exact wrap32_lt _
      · intro k
        by_cases hk : k = categoryKey <;>
          simp [Ledger.addTransaction, Ledger.fheAdd, Ledger.fromExternal,
            hk, wrap32_lt, hct2 k]
    · have h := hwf addr
      simp only [Ledger.addTransaction] at h ⊢
      simpa [haddr] using h
  · intro s caller budgetExt hwf addr
    obtain ⟨hb2, he2, hbu2, htx2, hct2⟩ := hwf caller
    by_cases haddr : addr = caller
    · subst haddr
      refine ⟨?_, ?_, ?_, ?_, ?_⟩
      · cases hb : (s.accounts addr).balance <;>
          simp_all [Ledger.setMonthlyBudget, Ledger.updateBudgetFlags,
            Ledger.ensureNumericInitialized]
      · cases he : (s.accounts addr).monthlyExpense <;>
          simp_all [Ledger.setMonthlyBudget, Ledger.updateBudgetFlags,
            Ledger.ensureNumericInitialized]
      · simp [Ledger.setMonthlyBudget, Ledger.updateBudgetFlags,
          Ledger.ensureNumericInitialized, Ledger.fromExternal, wrap32_lt]
      · simpa [Ledger.setMonthlyBudget] using htx2
      · simpa [Ledger.setMonthlyBudget] using hct2
    · have h := hwf addr
      simp only [Ledger.setMonthlyBudget] at h ⊢
      simpa [haddr] using h

/-- Witness for claim C5: the invariant holds of the fresh storage
and is preserved by a first transaction. -/
theorem storageShape_spec_witness :
    Ledger.wfState (Ledger.addTransaction Ledger.initialState 0 100 0 0 true 0 1) := by
  have hinit : Ledger.wfState Ledger.initialState := by
    intro addr
    refine ⟨?_, ?_, ?_, ?_, ?_⟩ <;>
      simp [Ledger.initialState, Ledger.defaultAccount, U32]
  exact storageShape_spec.2.1 Ledger.initialState 0 100 0 0 0 1 true hinit

/-- Claim C6: decryption happens only on demand. `refreshData` never
calls `instance.userDecrypt`; `decryptBalance` calls it only when a
balance handle is present, differs from the cached clear-value
handle, and is not the all-zero hash; and on the all-zero handle it
sets the clear balance to 0 directly, with no decryption call. -/
theorem decryptOnDemand_spec (rc : RefreshCtx) (c : DecryptBalanceCtx)
    (hs : List String) :
    (Eff.callUserDecrypt hs ∉ refreshDataTrace rc) ∧
    (Eff.callUserDecrypt hs ∈ decryptBalanceTrace c →
       ∃ h, c.balanceHandle = some h ∧ hs = [h] ∧
         c.cachedHandle ≠ some h ∧ h ≠ ZeroHash) ∧
    (c.isRefreshing = false → c.isDecrypting = false →
     c.ledgerAddress.isSome = true → c.hasInstance = true →
     c.hasSigner = true → c.balanceHandle = some ZeroHash →
     c.cachedHandle ≠ some ZeroHash →
     decryptBalanceTrace c = [Eff.setClearBalance ZeroHash 0]) := by
  refine ⟨?_, ?_, ?_⟩
  · intro hmem
    simp only [refreshDataTrace] at hmem
    split_ifs at hmem <;> simp_all
  · intro hmem
    cases hbal : c.balanceHandle with
    | none => simp [decryptBalanceTrace, hbal] at hmem
    | some hb =>
      simp only [decryptBalanceTrace, hbal] at hmem
      split_ifs at hmem with h1 h2 h3 h4 h5 h6 h7 <;> simp_all
  · intro g1 g2 g3 g4 g5 g6 g7
    simp [decryptBalanceTrace, g1, g2, g3, g4, g5, g6, g7]

/-- Witness for claim C6 at concrete runs: a zero balance handle is
cleared to 0 without decryption, and a fresh handle is decrypted only
because it is present, uncached and nonzero. -/
theorem decryptOnDemand_spec_witness :
    (decryptBalanceTrace ctxDecryptZero = [Eff.setClearBalance ZeroHash 0]) ∧
    (∃ h, ctxDecryptFresh.balanceHandle = some h ∧ ["0xbal"] = [h] ∧
       ctxDecryptFresh.cachedHandle ≠ some h ∧ h ≠ ZeroHash) := by
  constructor
  · exact (decryptOnDemand_spec ctxRefreshFresh ctxDecryptZero []).2.2
      rfl rfl rfl rfl rfl rfl (by decide)
  · exact (decryptOnDemand_spec ctxRefreshFresh ctxDecryptFresh ["0xbal"]).2.1
      (by decide)

/-- Claim C2: the frontend encrypts inputs client-side.  In
`addTransaction` the amount is turned into an encrypted input bound
to the contract address and the user address
(`createEncryptedInput(...).add32(amount).encrypt()`), and the
contract call receives exactly the resulting handle and input proof
together with the plaintext timestamp, category, isIncome,
categoryKey and month; the plaintext amount is never an argument of
the call.  `setBudget` does the same for the budget, the call
receiving only the handle and the proof. -/
theorem clientSideEncryption_spec (ca : AddTxCtx) (cg : SetBudgetCtx)
    (amount category categoryKey budget : Nat) (isIncome : Bool)
    (addrA addrB : String)
    (haR : ca.isRefreshing = false) (haS : ca.isSubmitting = false)
    (haA : ca.ledgerAddress = some addrA) (haI : ca.hasInstance = true)
    (haG : ca.hasSigner = true) (haF : isStaleAt addrA ca.snap1 = false)
    (hbR : cg.isRefreshing = false) (hbS : cg.isSubmitting = false)
    (hbA : cg.ledgerAddress = some addrB) (hbI : cg.hasInstance = true)
    (hbG : cg.hasSigner = true) (hbF : isStaleAt addrB cg.snap1 = false) :
    (Eff.createEncInput addrA ca.userAddr [amount]
       ∈ addTransactionTrace ca amount isIncome category categoryKey) ∧
    (Eff.callContract "addTransaction"
       [Arg.encHandle ca.encHandle, Arg.num ca.nowTimestamp, Arg.num category,
        Arg.boolean isIncome, Arg.num categoryKey, Arg.num ca.nowMonth,
        Arg.proofBytes ca.encProof]
       ∈ addTransactionTrace ca amount isIncome category categoryKey) ∧
    (∀ args, Eff.callContract "addTransaction" args
       ∈ addTransactionTrace ca amount isIncome category categoryKey →
       args = [Arg.encHandle ca.encHandle, Arg.num ca.nowTimestamp,
         Arg.num category, Arg.boolean isIncome, Arg.num categoryKey,
         Arg.num ca.nowMonth, Arg.proofBytes ca.encProof]) ∧
    (amount ≠ ca.nowTimestamp → amount ≠ category → amount ≠ categoryKey →
     amount ≠ ca.nowMonth →
     Arg.num amount ∉ [Arg.encHandle ca.encHandle, Arg.num ca.nowTimestamp,
       Arg.num category, Arg.boolean isIncome, Arg.num categoryKey,
       Arg.num ca.nowMonth, Arg.proofBytes ca.encProof]) ∧
    (Eff.createEncInput addrB cg.userAddr [budget] ∈ setBudgetTrace cg budget) ∧
    (Eff.callContract "setMonthlyBudget"
       [Arg.encHandle cg.encHandle, Arg.proofBytes cg.encProof]
       ∈ setBudgetTrace cg budget) ∧
    (∀ args, Eff.callContract "setMonthlyBudget" args ∈ setBudgetTrace cg budget →
       args = [Arg.encHandle cg.encHandle, Arg.proofBytes cg.encProof]) := by
  refine ⟨?_, ?_, ?_, ?_, ?_, ?_, ?_⟩
  · simp [addTransactionTrace, haR, haS, haA, haI, haG, haF]
  · simp only [addTransactionTrace, haR, haS, haA, haI, haG, haF]
    split_ifs <;> simp_all
  · intro args hmem
    simp only [addTransactionTrace, haR, haS, haA, haI, haG, haF] at hmem
    split_ifs at hmem <;> simp_all
  · intro h1 h2 h3 h4
    simp [h1, h2, h3, h4]
  · simp [setBudgetTrace, hbR, hbS, hbA, hbI, hbG, hbF]
  · simp only [setBudgetTrace, hbR, hbS, hbA, hbI, hbG, hbF]
    split_ifs <;> simp_all
  · intro args hmem
    simp only [setBudgetTrace, hbR, hbS, hbA, hbI, hbG, hbF] at hmem
    split_ifs at hmem <;> simp_all

/-- Witness for claim C2 at concrete fresh runs: the encrypted input
is created for the contract and user addresses with the amount, and
the contract calls carry the handle and proof. -/
theorem clientSideEncryption_spec_witness :
    (Eff.createEncInput "0xc0ffee" "0xuser" [5]
       ∈ addTransactionTrace ctxAddFresh 5 false 1 2) ∧
    (Eff.callContract "setMonthlyBudget"
       [Arg.encHandle "0xhandle", Arg.proofBytes "0xproof"]
       ∈ setBudgetTrace ctxBudgetFresh 7) := by
  have h := clientSideEncryption_spec ctxAddFresh ctxBudgetFresh 5 1 2 7 false
    "0xc0ffee" "0xc0ffee" rfl rfl rfl rfl rfl (by decide)
    rfl rfl rfl rfl rfl (by decide)
  exact ⟨h.1, h.2.2.2.2.2.1⟩

/-- Claim C1 counterexample: in `addTransaction`, when the contract
address is no longer current at the first `isStale()` check, the
handler has already committed the awaited encryption result (the
input handle) to React state and still does so, besides setting the
Ignore message; so a result produced after an await is committed
although the staleness check fails, and the handler does not only
set an Ignore message. -/
theorem staleGuard_counterexample :
    isStaleAt "0xc0ffee" ctxAddStale.snap1 = true ∧
    Eff.setDiag "lastAddAmountHandle" "0xhandle"
      ∈ addTransactionTrace ctxAddStale 5 false 1 1 ∧
    Eff.setMsg "Ignore transaction submission"
      ∈ addTransactionTrace ctxAddStale 5 false 1 1 ∧
    Eff.callRefreshData ∉ addTransactionTrace ctxAddStale 5 false 1 1 := by
  decide

set_option maxHeartbeats 1600000 in
/-- Claim C1 (amended): in `decryptBalance` and `decryptStats` a
decrypted value is committed to state only if the `isStale()` check
(captured contract address still the current one, same chain id,
same signer) passed at both re-check points; in `addTransaction` and
`setBudget` the contract call is made only if the check passed after
encryption and `refreshData` is triggered only if it also passed
after the receipt; but `addTransaction` commits its diagnostic state
(including the awaited encryption handle) without any staleness
guard. -/
theorem staleGuard_amended (cb : DecryptBalanceCtx) (cs : DecryptStatsCtx)
    (ca : AddTxCtx) (cg : SetBudgetCtx)
    (amount category categoryKey budget : Nat) (isIncome : Bool)
    (h : String) (v : Nat) (args : List Arg) :
    (Eff.setClearBalance h v ∈ decryptBalanceTrace cb → h ≠ ZeroHash →
       isStaleAt (cb.ledgerAddress.getD "") cb.snap1 = false ∧
       isStaleAt (cb.ledgerAddress.getD "") cb.snap2 = false) ∧
    (Eff.setClearMonthlyExpense h v ∈ decryptStatsTrace cs →
       isStaleAt (cs.ledgerAddress.getD "") cs.snap1 = false ∧
       isStaleAt (cs.ledgerAddress.getD "") cs.snap2 = false) ∧
    (Eff.setClearMonthlyBudget h v ∈ decryptStatsTrace cs →
       isStaleAt (cs.ledgerAddress.getD "") cs.snap1 = false ∧
       isStaleAt (cs.ledgerAddress.getD "") cs.snap2 = false) ∧
    (Eff.callContract "addTransaction" args
       ∈ addTransactionTrace ca amount isIncome category categoryKey →
       isStaleAt (ca.ledgerAddress.getD "") ca.snap1 = false) ∧
    (Eff.callRefreshData ∈ addTransactionTrace ca amount isIncome category categoryKey →
       isStaleAt (ca.ledgerAddress.getD "") ca.snap1 = false ∧
       isStaleAt (ca.ledgerAddress.getD "") ca.snap2 = false) ∧
    (Eff.callContract "setMonthlyBudget" args ∈ setBudgetTrace cg budget →
       isStaleAt (cg.ledgerAddress.getD "") cg.snap1 = false) ∧
    (Eff.callRefreshData ∈ setBudgetTrace cg budget →
       isStaleAt (cg.ledgerAddress.getD "") cg.snap1 = false ∧
       isStaleAt (cg.ledgerAddress.getD "") cg.snap2 = false) ∧
    (ca.isRefreshing = false → ca.isSubmitting = false →
     ca.ledgerAddress.isSome = true → ca.hasInstance = true →
     ca.hasSigner = true →
     Eff.setDiag "lastAddAmountHandle" ca.encHandle
       ∈ addTransactionTrace ca amount isIncome category categoryKey) := by
  refine ⟨?_, ?_, ?_, ?_, ?_, ?_, ?_, ?_⟩
  · intro hmem hz
    simp only [decryptBalanceTrace] at hmem
    split_ifs at hmem <;> simp_all
  · intro hmem
    cases hE : cs.expenseHandle <;> cases hB : cs.budgetHandle <;>
      (simp only [decryptStatsTrace, eligibleHandle, hE, hB] at hmem;
       split_ifs at hmem <;> simp_all)
  · intro hmem
    cases hE : cs.expenseHandle <;> cases hB : cs.budgetHandle <;>
      (simp only [decryptStatsTrace, eligibleHandle, hE, hB] at hmem;
       split_ifs at hmem <;> simp_all)
  · intro hmem
    simp only [addTransactionTrace] at hmem
    split_ifs at hmem <;> simp_all
  · intro hmem
    simp only [addTransactionTrace] at hmem
    split_ifs at hmem <;> simp_all
  · intro hmem
    simp only [setBudgetTrace] at hmem
    split_ifs at hmem <;> simp_all
  · intro hmem
    simp only [setBudgetTrace] at hmem
    split_ifs at hmem <;> simp_all
  · intro g1 g2 g3 g4 g5
    simp only [addTransactionTrace, g1, g2, g3, g4, g5]
    split_ifs <;> simp_all

/-- Witness for the amended claim C1 at concrete runs: a fresh
balance decryption implies both checks passed, and the stale
`addTransaction` run still commits the encryption handle. -/
theorem staleGuard_amended_witness :
    (isStaleAt (ctxDecryptFresh.ledgerAddress.getD "") ctxDecryptFresh.snap1 = false ∧
     isStaleAt (ctxDecryptFresh.ledgerAddress.getD "") ctxDecryptFresh.snap2 = false) ∧
    Eff.setDiag "lastAddAmountHandle" ctxAddStale.encHandle
      ∈ addTransactionTrace ctxAddStale 5 false 1 1 := by
  constructor
  · exact (staleGuard_amended ctxDecryptFresh ctxStatsFresh ctxAddStale
      ctxBudgetFresh 5 1 1 7 false "0xbal" 42 []).1 (by decide) (by decide)
  · exact (staleGuard_amended ctxDecryptFresh ctxStatsFresh ctxAddStale
      ctxBudgetFresh 5 1 1 7 false "0xbal" 42 []).2.2.2.2.2.2.2
      rfl rfl rfl rfl rfl
